import Mathlib

/-!
Verification of the measurement-dispatch layer of the ESKF ROS node
(src/src/Node.cpp) against its natural-language specification.

The embedding models each callback of eskf::Node as a pure function from the
node's mutable state and an incoming message to the updated state together with
the list of Estimator Facade calls it emits (zero or one per callback).
Timestamp arithmetic is carried out exactly over the rationals.
-/

namespace ESKF

/-- ROS timestamp: whole-seconds field and nanoseconds field (ros::Time). -/
structure Time where
  sec : Nat
  nsec : Nat
deriving DecidableEq, Repr

/-- The default-constructed zero timestamp ros::Time(), which is the initial
value of every prevStamp member of eskf::Node. -/
def Time.zero : Time := ⟨0, 0⟩

/-- Value of a timestamp in seconds, as an exact rational
(ros::Time::toSec under exact arithmetic). -/
def Time.toSec (t : Time) : ℚ := (t.sec : ℚ) + (t.nsec : ℚ) / 1000000000

/-- Microsecond timestamp derived from a ROS time, as computed by
static_cast<uint64_t>(stamp.toSec()*1e6f) under exact arithmetic. -/
def Time.toUs (t : Time) : Nat := t.sec * 1000000 + t.nsec / 1000

/-- A 3-vector of exact scalars (vec3 in Node.cpp). -/
structure Vec3 where
  x : ℚ
  y : ℚ
  z : ℚ
deriving DecidableEq, Repr

/-- A 2-vector of exact scalars (vec2 in Node.cpp). -/
structure Vec2 where
  x : ℚ
  y : ℚ
deriving DecidableEq, Repr

/-- A quaternion of exact scalars (quat in Node.cpp), w first. -/
structure Quat where
  w : ℚ
  x : ℚ
  y : ℚ
  z : ℚ
deriving DecidableEq, Repr

/-- sensor_msgs::Imu, restricted to the fields Node.cpp reads. -/
structure ImuMsg where
  stamp : Time
  angular_velocity : Vec3
  linear_acceleration : Vec3
deriving DecidableEq, Repr

/-- geometry_msgs::PoseWithCovarianceStamped, restricted to the fields
Node.cpp reads in visionCallback. -/
structure PoseMsg where
  stamp : Time
  orientation : Quat
  position : Vec3
deriving DecidableEq, Repr

/-- nav_msgs::Odometry, restricted to the fields Node.cpp reads. -/
structure OdomMsg where
  stamp : Time
  twist_linear : Vec3
  position : Vec3
deriving DecidableEq, Repr

/-- mavros_msgs::OpticalFlowRad, restricted to the fields Node.cpp reads. -/
structure FlowMsg where
  stamp : Time
  integrated_x : ℚ
  integrated_y : ℚ
  integrated_xgyro : ℚ
  integrated_ygyro : ℚ
  integration_time_us : Nat
  distance : ℚ
  quality : Nat
deriving DecidableEq, Repr

/-- mavros_msgs::ExtendedState, restricted to the field Node.cpp reads. -/
structure ExtStateMsg where
  landed_state : Nat
deriving DecidableEq, Repr

/-- Modelled from the spec: the constant mavros_msgs::ExtendedState::LANDED_STATE_IN_AIR
comes from the host middleware headers, which are not under src/; the spec says the
forwarded boolean is the in-air bit derived from the landed-state enum, so this is
one fixed bit of that enum. -/
def LANDED_STATE_IN_AIR : Nat := 2

/-- Modelled from the spec: the MASK_EV_POS flag is declared in a header that is not
under src/; the spec describes the fusion mask as a bitset of seven distinct flags
(vision position, vision yaw, vision height, gps position, gps velocity, gps height,
optical flow), so the seven constants below are seven distinct bits. -/
def MASK_EV_POS : Nat := 1

/-- Modelled from the spec: vision-yaw bit flag (header not under src/). -/
def MASK_EV_YAW : Nat := 2

/-- Modelled from the spec: vision-height bit flag (header not under src/). -/
def MASK_EV_HGT : Nat := 4

/-- Modelled from the spec: gps-position bit flag (header not under src/). -/
def MASK_GPS_POS : Nat := 8

/-- Modelled from the spec: gps-velocity bit flag (header not under src/). -/
def MASK_GPS_VEL : Nat := 16

/-- Modelled from the spec: gps-height bit flag (header not under src/). -/
def MASK_GPS_HGT : Nat := 32

/-- Modelled from the spec: optical-flow bit flag (header not under src/). -/
def MASK_OPTICAL_FLOW : Nat := 64

/-- One call into the Estimator Facade (the eskf_ member), with all the data
Node.cpp hands over. -/
inductive Call where
  | run (wm am : Vec3) (timeUs : Nat) (dt : ℚ)
  | updateVision (q : Quat) (p : Vec3) (timeUs : Nat) (dt : ℚ)
  | updateGps (v p : Vec3) (timeUs : Nat) (dt : ℚ)
  | updateOpticalFlow (intXY intGyroXY : Vec2) (integrationTimeUs : Nat)
      (distance : ℚ) (quality : Nat) (timeUs : Nat) (dt : ℚ)
  | updateLandedState (inAir : Bool)
  | setFusionMask (mask : Nat)
deriving DecidableEq, Repr

/-- True exactly on vision-channel facade calls. -/
def Call.isVisionCall : Call → Bool
  | .updateVision _ _ _ _ => true
  | _ => false

/-- True exactly on gps-channel facade calls. -/
def Call.isGpsCall : Call → Bool
  | .updateGps _ _ _ _ => true
  | _ => false

/-- True exactly on optical-flow-channel facade calls. -/
def Call.isOpticalFlowCall : Call → Bool
  | .updateOpticalFlow _ _ _ _ _ _ _ => true
  | _ => false

/-- The mutable per-channel state of eskf::Node: the init flag and the four
previous-stamp members (all default-constructed to ros::Time(), i.e. zero). -/
structure NodeState where
  init : Bool
  prevStampImu : Time
  prevStampVisionPose : Time
  prevStampGpsPose : Time
  prevStampOpticalFlowPose : Time
deriving DecidableEq, Repr

/-- The node state right after the eskf::Node constructor ran:
init_ is false and every prevStamp member is the zero time. -/
def initialNodeState : NodeState :=
  { init := false
    prevStampImu := Time.zero
    prevStampVisionPose := Time.zero
    prevStampGpsPose := Time.zero
    prevStampOpticalFlowPose := Time.zero }

/-- Node::inputCallback (Node.cpp lines 39-56): forward an inertial sample to
eskf_.run with the elapsed seconds since the previous imu stamp, unless the
previous imu stamp has a zero seconds field; always record the new stamp. -/
def inputCallback (s : NodeState) (m : ImuMsg) : NodeState × List Call :=
  let wm := m.angular_velocity
  let am := m.linear_acceleration
  if s.prevStampImu.sec ≠ 0 then
    let delta : ℚ := m.stamp.toSec - s.prevStampImu.toSec
    ({ s with init := true, prevStampImu := m.stamp },
      [Call.run wm am m.stamp.toUs delta])
  else
    ({ s with prevStampImu := m.stamp }, [])

/-- Node::visionCallback (Node.cpp lines 58-68): forward a vision pose to
eskf_.updateVision with the elapsed seconds since the previous vision stamp,
unless the previous vision stamp has a zero seconds field; always record the
new stamp. -/
def visionCallback (s : NodeState) (m : PoseMsg) : NodeState × List Call :=
  if s.prevStampVisionPose.sec ≠ 0 then
    let delta : ℚ := m.stamp.toSec - s.prevStampVisionPose.toSec
    ({ s with prevStampVisionPose := m.stamp },
      [Call.updateVision m.orientation m.position m.stamp.toUs delta])
  else
    ({ s with prevStampVisionPose := m.stamp }, [])

/-- Node::gpsCallback (Node.cpp lines 70-80): forward a gps odometry sample to
eskf_.updateGps with the elapsed seconds since the previous gps stamp, unless
the previous gps stamp has a zero seconds field; always record the new stamp. -/
def gpsCallback (s : NodeState) (m : OdomMsg) : NodeState × List Call :=
  if s.prevStampGpsPose.sec ≠ 0 then
    let delta : ℚ := m.stamp.toSec - s.prevStampGpsPose.toSec
    ({ s with prevStampGpsPose := m.stamp },
      [Call.updateGps m.twist_linear m.position m.stamp.toUs delta])
  else
    ({ s with prevStampGpsPose := m.stamp }, [])

/-- Node::opticalFlowCallback (Node.cpp lines 82-95): forward an optical-flow
sample to eskf_.updateOpticalFlow with the elapsed seconds since the previous
optical-flow stamp, unless the previous optical-flow stamp has a zero seconds
field; always record the new stamp. -/
def opticalFlowCallback (s : NodeState) (m : FlowMsg) : NodeState × List Call :=
  if s.prevStampOpticalFlowPose.sec ≠ 0 then
    let delta : ℚ := m.stamp.toSec - s.prevStampOpticalFlowPose.toSec
    ({ s with prevStampOpticalFlowPose := m.stamp },
      [Call.updateOpticalFlow
        ⟨m.integrated_x, m.integrated_y⟩
        ⟨m.integrated_xgyro, m.integrated_ygyro⟩
        m.integration_time_us m.distance m.quality m.stamp.toUs delta])
  else
    ({ s with prevStampOpticalFlowPose := m.stamp }, [])

/-- Node::extendedStateCallback (Node.cpp lines 97-99): forward the in-air bit
of the landed-state enum to eskf_.updateLandedState on every message; the node
state is untouched. -/
def extendedStateCallback (s : NodeState) (m : ExtStateMsg) : NodeState × List Call :=
  (s, [Call.updateLandedState (m.landed_state &&& LANDED_STATE_IN_AIR != 0)])

/-- Which subscriptions the eskf::Node constructor creates. imu and
extended_state are always subscribed; the three optional channels are gated by
the fusion mask. -/
structure Subscriptions where
  imu : Bool
  extendedState : Bool
  vision : Bool
  gps : Bool
  opticalFlow : Bool
deriving DecidableEq, Repr

/-- The subscription decisions of the eskf::Node constructor
(Node.cpp lines 7-28), as functions of the fusion mask value. -/
def nodeSubscriptions (fusion_mask : Nat) : Subscriptions :=
  { imu := true
    extendedState := true
    vision := (fusion_mask &&& MASK_EV_POS != 0) || (fusion_mask &&& MASK_EV_YAW != 0)
      || (fusion_mask &&& MASK_EV_HGT != 0)
    gps := (fusion_mask &&& MASK_GPS_POS != 0) || (fusion_mask &&& MASK_GPS_VEL != 0)
      || (fusion_mask &&& MASK_GPS_HGT != 0)
    opticalFlow := fusion_mask &&& MASK_OPTICAL_FLOW != 0 }

/-- The eskf::Node constructor (Node.cpp lines 7-37): from the single
fusion_mask value it derives the subscription set and emits the one
eskf_.setFusionMask call handing that same value downstream. -/
def nodeConstructor (fusion_mask : Nat) : Subscriptions × List Call :=
  (nodeSubscriptions fusion_mask, [Call.setFusionMask fusion_mask])

/-- Whether a fusion-mask value enables the vision channel group
(any of the three vision bits set). -/
def maskEnablesVision (mask : Nat) : Bool :=
  (mask &&& MASK_EV_POS != 0) || (mask &&& MASK_EV_YAW != 0) || (mask &&& MASK_EV_HGT != 0)

/-- Whether a fusion-mask value enables the gps channel group
(any of the three gps bits set). -/
def maskEnablesGps (mask : Nat) : Bool :=
  (mask &&& MASK_GPS_POS != 0) || (mask &&& MASK_GPS_VEL != 0) || (mask &&& MASK_GPS_HGT != 0)

/-- Whether a fusion-mask value enables the optical-flow channel. -/
def maskEnablesOpticalFlow (mask : Nat) : Bool :=
  mask &&& MASK_OPTICAL_FLOW != 0

/-- A raw transport message delivered to the node, tagged by channel. -/
inductive RawMsg where
  | imu (m : ImuMsg)
  | vision (m : PoseMsg)
  | gps (m : OdomMsg)
  | opticalFlow (m : FlowMsg)
  | extendedState (m : ExtStateMsg)
deriving DecidableEq, Repr

/-- Delivery of one raw message to the node: the channel's callback runs only
if the channel was subscribed at construction; an unsubscribed channel's
messages never reach the node at all. -/
def stepNode (subs : Subscriptions) (s : NodeState) : RawMsg → NodeState × List Call
  | .imu m => if subs.imu then inputCallback s m else (s, [])
  | .vision m => if subs.vision then visionCallback s m else (s, [])
  | .gps m => if subs.gps then gpsCallback s m else (s, [])
  | .opticalFlow m => if subs.opticalFlow then opticalFlowCallback s m else (s, [])
  | .extendedState m => if subs.extendedState then extendedStateCallback s m else (s, [])

/-- Delivery of a sequence of raw messages in arrival order, accumulating the
facade-call trace. -/
def runNode (subs : Subscriptions) (s : NodeState) : List RawMsg → NodeState × List Call
  | [] => (s, [])
  | msg :: rest =>
    let step := stepNode subs s msg
    let tail := runNode subs step.1 rest
    (tail.1, step.2 ++ tail.2)

/-- The estimator belief read by the publisher: eskf_.getQuat() and
eskf_.getXYZ(). -/
structure EstimatorBelief where
  q : Quat
  p : Vec3
deriving DecidableEq, Repr

/-- One published geometry_msgs::PoseWithCovarianceStamped record, restricted
to the fields Node.cpp writes. -/
structure OutputPose where
  seq : Nat
  stamp : Time
  frameId : String
  position : Vec3
  orientation : Quat
  covariance : List ℚ
deriving DecidableEq, Repr

/-- Node::publishState (Node.cpp lines 101-134): read the estimator's current
orientation and position, stamp the record with the current wall time and the
post-incremented static trace_id_ counter, zero all 36 covariance entries and
publish. Returns the new counter value and the emitted record. -/
def publishState (est : EstimatorBelief) (now : Time) (traceId : Nat) :
    Nat × OutputPose :=
  (traceId + 1,
    { seq := traceId
      stamp := now
      frameId := "/pose"
      position := est.p
      orientation := est.q
      covariance := List.replicate 36 0 })

/-- A sequence of publisher ticks: each tick sees the estimator belief and wall
time of that instant and bumps the process-lifetime counter. Returns the final
counter and the emitted records in order. -/
def runPublisher (traceId : Nat) : List (EstimatorBelief × Time) → Nat × List OutputPose
  | [] => (traceId, [])
  | (est, now) :: rest =>
    let fst := publishState est now traceId
    let tail := runPublisher fst.1 rest
    (tail.1, fst.2 :: tail.2)

/-- True exactly on inertial-channel facade calls. -/
def Call.isInertialCall : Call → Bool
  | .run _ _ _ _ => true
  | _ => false

/-- Per-callback frame lemma for the inertial adapter: it records the incoming
stamp, leaves every other channel stamp alone, and emits at most one facade
call, which targets the inertial channel. -/
lemma inputCallback_frame (s : NodeState) (m : ImuMsg) :
    (inputCallback s m).1.prevStampImu = m.stamp ∧
    (inputCallback s m).1.prevStampVisionPose = s.prevStampVisionPose ∧
    (inputCallback s m).1.prevStampGpsPose = s.prevStampGpsPose ∧
    (inputCallback s m).1.prevStampOpticalFlowPose = s.prevStampOpticalFlowPose ∧
    (inputCallback s m).2.length ≤ 1 ∧
    ((inputCallback s m).2.all (fun c => c.isInertialCall)) = true := by
  by_cases h : s.prevStampImu.sec = 0 <;>
    simp [inputCallback, h, Call.isInertialCall]

/-- Per-callback frame lemma for the vision adapter. -/
lemma visionCallback_frame (s : NodeState) (m : PoseMsg) :
    (visionCallback s m).1.prevStampVisionPose = m.stamp ∧
    (visionCallback s m).1.prevStampImu = s.prevStampImu ∧
    (visionCallback s m).1.prevStampGpsPose = s.prevStampGpsPose ∧
    (visionCallback s m).1.prevStampOpticalFlowPose = s.prevStampOpticalFlowPose ∧
    (visionCallback s m).2.length ≤ 1 ∧
    ((visionCallback s m).2.all (fun c => c.isVisionCall)) = true := by
  by_cases h : s.prevStampVisionPose.sec = 0 <;>
    simp [visionCallback, h, Call.isVisionCall]

/-- Per-callback frame lemma for the gps adapter. -/
lemma gpsCallback_frame (s : NodeState) (m : OdomMsg) :
    (gpsCallback s m).1.prevStampGpsPose = m.stamp ∧
    (gpsCallback s m).1.prevStampImu = s.prevStampImu ∧
    (gpsCallback s m).1.prevStampVisionPose = s.prevStampVisionPose ∧
    (gpsCallback s m).1.prevStampOpticalFlowPose = s.prevStampOpticalFlowPose ∧
    (gpsCallback s m).2.length ≤ 1 ∧
    ((gpsCallback s m).2.all (fun c => c.isGpsCall)) = true := by
  by_cases h : s.prevStampGpsPose.sec = 0 <;>
    simp [gpsCallback, h, Call.isGpsCall]

/-- Per-callback frame lemma for the optical-flow adapter. -/
lemma opticalFlowCallback_frame (s : NodeState) (m : FlowMsg) :
    (opticalFlowCallback s m).1.prevStampOpticalFlowPose = m.stamp ∧
    (opticalFlowCallback s m).1.prevStampImu = s.prevStampImu ∧
    (opticalFlowCallback s m).1.prevStampVisionPose = s.prevStampVisionPose ∧
    (opticalFlowCallback s m).1.prevStampGpsPose = s.prevStampGpsPose ∧
    (opticalFlowCallback s m).2.length ≤ 1 ∧
    ((opticalFlowCallback s m).2.all (fun c => c.isOpticalFlowCall)) = true := by
  by_cases h : s.prevStampOpticalFlowPose.sec = 0 <;>
    simp [opticalFlowCallback, h, Call.isOpticalFlowCall]

/-- C1: For every delta-time channel (inertial, vision pose, gps, optical
flow), the very first sample delivered on that channel - the channel state
still holding the default-constructed zero timestamp - produces no Estimator
Facade ingest call, and it sets that channel's last-seen timestamp to the
sample's timestamp. -/
theorem firstSample_noIngest_setsStamp (s : NodeState)
    (mi : ImuMsg) (mv : PoseMsg) (mg : OdomMsg) (mf : FlowMsg) :
    (s.prevStampImu = Time.zero →
      (inputCallback s mi).2 = [] ∧ (inputCallback s mi).1.prevStampImu = mi.stamp) ∧
    (s.prevStampVisionPose = Time.zero →
      (visionCallback s mv).2 = [] ∧
        (visionCallback s mv).1.prevStampVisionPose = mv.stamp) ∧
    (s.prevStampGpsPose = Time.zero →
      (gpsCallback s mg).2 = [] ∧ (gpsCallback s mg).1.prevStampGpsPose = mg.stamp) ∧
    (s.prevStampOpticalFlowPose = Time.zero →
      (opticalFlowCallback s mf).2 = [] ∧
        (opticalFlowCallback s mf).1.prevStampOpticalFlowPose = mf.stamp) := by
  refine ⟨fun h => ?_, fun h => ?_, fun h => ?_, fun h => ?_⟩ <;>
    simp [inputCallback, visionCallback, gpsCallback, opticalFlowCallback, h, Time.zero]

/-- Witness for C1: from the freshly constructed node state, concrete first
samples on all four channels yield empty call traces and recorded stamps. -/
theorem firstSample_noIngest_setsStamp_witness :
    (inputCallback initialNodeState ⟨⟨2, 0⟩, ⟨1, 2, 3⟩, ⟨4, 5, 6⟩⟩).2 = [] ∧
    (inputCallback initialNodeState ⟨⟨2, 0⟩, ⟨1, 2, 3⟩, ⟨4, 5, 6⟩⟩).1.prevStampImu = ⟨2, 0⟩ ∧
    (visionCallback initialNodeState ⟨⟨3, 0⟩, ⟨1, 0, 0, 0⟩, ⟨7, 8, 9⟩⟩).2 = [] ∧
    (visionCallback initialNodeState ⟨⟨3, 0⟩, ⟨1, 0, 0, 0⟩, ⟨7, 8, 9⟩⟩).1.prevStampVisionPose = ⟨3, 0⟩ ∧
    (gpsCallback initialNodeState ⟨⟨4, 0⟩, ⟨1, 1, 1⟩, ⟨2, 2, 2⟩⟩).2 = [] ∧
    (gpsCallback initialNodeState ⟨⟨4, 0⟩, ⟨1, 1, 1⟩, ⟨2, 2, 2⟩⟩).1.prevStampGpsPose = ⟨4, 0⟩ ∧
    (opticalFlowCallback initialNodeState ⟨⟨5, 0⟩, 1, 2, 3, 4, 500, 6, 7⟩).2 = [] ∧
    (opticalFlowCallback initialNodeState ⟨⟨5, 0⟩, 1, 2, 3, 4, 500, 6, 7⟩).1.prevStampOpticalFlowPose = ⟨5, 0⟩ := by
  obtain ⟨h1, h2, h3, h4⟩ := firstSample_noIngest_setsStamp initialNodeState
    ⟨⟨2, 0⟩, ⟨1, 2, 3⟩, ⟨4, 5, 6⟩⟩ ⟨⟨3, 0⟩, ⟨1, 0, 0, 0⟩, ⟨7, 8, 9⟩⟩
    ⟨⟨4, 0⟩, ⟨1, 1, 1⟩, ⟨2, 2, 2⟩⟩ ⟨⟨5, 0⟩, 1, 2, 3, 4, 500, 6, 7⟩
  exact ⟨(h1 rfl).1, (h1 rfl).2, (h2 rfl).1, (h2 rfl).2,
    (h3 rfl).1, (h3 rfl).2, (h4 rfl).1, (h4 rfl).2⟩

/-- C6: Every delivered ground-contact message is forwarded to the Estimator
Facade's setGroundContact operation (updateLandedState), including the very
first one, with no bootstrap suppression and no delta-time computation; the
boolean forwarded is the in-air bit derived from the landed-state enum, and
the node's channel state is untouched. -/
theorem groundContact_always_forwarded (s : NodeState) (m : ExtStateMsg) :
    (extendedStateCallback s m).1 = s ∧
    (extendedStateCallback s m).2 =
      [Call.updateLandedState (m.landed_state &&& LANDED_STATE_IN_AIR != 0)] :=
  ⟨rfl, rfl⟩

/-- C10: The no-previous-sample test in every delta-time adapter inspects only
the whole-seconds field of the stored previous timestamp: whenever that field
is zero - even though a legitimate previous sample with a sub-second timestamp
was already recorded there - the incoming sample is treated as a bootstrap
sample, so no measurement is forwarded and the timestamp is merely recorded. -/
theorem bootstrap_checks_sec_only (s : NodeState)
    (mi : ImuMsg) (mv : PoseMsg) (mg : OdomMsg) (mf : FlowMsg) :
    (s.prevStampImu.sec = 0 →
      (inputCallback s mi).2 = [] ∧ (inputCallback s mi).1.prevStampImu = mi.stamp) ∧
    (s.prevStampVisionPose.sec = 0 →
      (visionCallback s mv).2 = [] ∧
        (visionCallback s mv).1.prevStampVisionPose = mv.stamp) ∧
    (s.prevStampGpsPose.sec = 0 →
      (gpsCallback s mg).2 = [] ∧ (gpsCallback s mg).1.prevStampGpsPose = mg.stamp) ∧
    (s.prevStampOpticalFlowPose.sec = 0 →
      (opticalFlowCallback s mf).2 = [] ∧
        (opticalFlowCallback s mf).1.prevStampOpticalFlowPose = mf.stamp) := by
  refine ⟨fun h => ?_, fun h => ?_, fun h => ?_, fun h => ?_⟩ <;>
    simp [inputCallback, visionCallback, gpsCallback, opticalFlowCallback, h]

/-- Witness for C10: each channel has already recorded a legitimate previous
sample strictly below one second (nonzero nanoseconds, zero seconds field), yet
the next sample is still swallowed as bootstrap on every channel. -/
theorem bootstrap_checks_sec_only_witness :
    (inputCallback ⟨false, ⟨0, 900000000⟩, ⟨0, 1⟩, ⟨0, 2⟩, ⟨0, 3⟩⟩
        ⟨⟨2, 0⟩, ⟨1, 2, 3⟩, ⟨4, 5, 6⟩⟩).2 = [] ∧
    (inputCallback ⟨false, ⟨0, 900000000⟩, ⟨0, 1⟩, ⟨0, 2⟩, ⟨0, 3⟩⟩
        ⟨⟨2, 0⟩, ⟨1, 2, 3⟩, ⟨4, 5, 6⟩⟩).1.prevStampImu = ⟨2, 0⟩ ∧
    (visionCallback ⟨false, ⟨0, 900000000⟩, ⟨0, 1⟩, ⟨0, 2⟩, ⟨0, 3⟩⟩
        ⟨⟨3, 0⟩, ⟨1, 0, 0, 0⟩, ⟨7, 8, 9⟩⟩).2 = [] ∧
    (gpsCallback ⟨false, ⟨0, 900000000⟩, ⟨0, 1⟩, ⟨0, 2⟩, ⟨0, 3⟩⟩
        ⟨⟨4, 0⟩, ⟨1, 1, 1⟩, ⟨2, 2, 2⟩⟩).2 = [] ∧
    (opticalFlowCallback ⟨false, ⟨0, 900000000⟩, ⟨0, 1⟩, ⟨0, 2⟩, ⟨0, 3⟩⟩
        ⟨⟨5, 0⟩, 1, 2, 3, 4, 500, 6, 7⟩).2 = [] := by
  obtain ⟨h1, h2, h3, h4⟩ := bootstrap_checks_sec_only
    ⟨false, ⟨0, 900000000⟩, ⟨0, 1⟩, ⟨0, 2⟩, ⟨0, 3⟩⟩
    ⟨⟨2, 0⟩, ⟨1, 2, 3⟩, ⟨4, 5, 6⟩⟩ ⟨⟨3, 0⟩, ⟨1, 0, 0, 0⟩, ⟨7, 8, 9⟩⟩
    ⟨⟨4, 0⟩, ⟨1, 1, 1⟩, ⟨2, 2, 2⟩⟩ ⟨⟨5, 0⟩, 1, 2, 3, 4, 500, 6, 7⟩
  exact ⟨(h1 rfl).1, (h1 rfl).2, (h2 rfl).1, (h3 rfl).1, (h4 rfl).1⟩

/-- C7: Every adapter call updates its own channel's last-seen timestamp to the
incoming sample's timestamp unconditionally, leaves the other channels' stamps
untouched, and emits at most one Estimator Facade call, which targets its own
channel; the ground-contact callback touches no channel state and emits exactly
one call. -/
theorem adapter_frame_conditions (s : NodeState)
    (mi : ImuMsg) (mv : PoseMsg) (mg : OdomMsg) (mf : FlowMsg) (me : ExtStateMsg) :
    ((inputCallback s mi).1.prevStampImu = mi.stamp ∧
     (inputCallback s mi).1.prevStampVisionPose = s.prevStampVisionPose ∧
     (inputCallback s mi).1.prevStampGpsPose = s.prevStampGpsPose ∧
     (inputCallback s mi).1.prevStampOpticalFlowPose = s.prevStampOpticalFlowPose ∧
     (inputCallback s mi).2.length ≤ 1 ∧
     ((inputCallback s mi).2.all (fun c => c.isInertialCall)) = true) ∧
    ((visionCallback s mv).1.prevStampVisionPose = mv.stamp ∧
     (visionCallback s mv).1.prevStampImu = s.prevStampImu ∧
     (visionCallback s mv).1.prevStampGpsPose = s.prevStampGpsPose ∧
     (visionCallback s mv).1.prevStampOpticalFlowPose = s.prevStampOpticalFlowPose ∧
     (visionCallback s mv).2.length ≤ 1 ∧
     ((visionCallback s mv).2.all (fun c => c.isVisionCall)) = true) ∧
    ((gpsCallback s mg).1.prevStampGpsPose = mg.stamp ∧
     (gpsCallback s mg).1.prevStampImu = s.prevStampImu ∧
     (gpsCallback s mg).1.prevStampVisionPose = s.prevStampVisionPose ∧
     (gpsCallback s mg).1.prevStampOpticalFlowPose = s.prevStampOpticalFlowPose ∧
     (gpsCallback s mg).2.length ≤ 1 ∧
     ((gpsCallback s mg).2.all (fun c => c.isGpsCall)) = true) ∧
    ((opticalFlowCallback s mf).1.prevStampOpticalFlowPose = mf.stamp ∧
     (opticalFlowCallback s mf).1.prevStampImu = s.prevStampImu ∧
     (opticalFlowCallback s mf).1.prevStampVisionPose = s.prevStampVisionPose ∧
     (opticalFlowCallback s mf).1.prevStampGpsPose = s.prevStampGpsPose ∧
     (opticalFlowCallback s mf).2.length ≤ 1 ∧
     ((opticalFlowCallback s mf).2.all (fun c => c.isOpticalFlowCall)) = true) ∧
    ((extendedStateCallback s me).1 = s ∧ (extendedStateCallback s me).2.length = 1) :=
  ⟨inputCallback_frame s mi, visionCallback_frame s mv, gpsCallback_frame s mg,
    opticalFlowCallback_frame s mf, rfl, rfl⟩

/-- Counterexample to C2 as stated: inertial samples at t=100000 microseconds
(0.1 s) and then t=150000 microseconds (0.15 s), delivered to the freshly
constructed node. The claim demands exactly one ingestInertial call with
dt=0.05 for the second sample, but because the first sample's whole-seconds
field is 0, the second sample is also treated as a bootstrap sample and the
call trace is empty. -/
theorem dt_scenario_counterexample :
    (inputCallback
      (inputCallback initialNodeState ⟨⟨0, 100000000⟩, ⟨1, 2, 3⟩, ⟨4, 5, 6⟩⟩).1
      ⟨⟨0, 150000000⟩, ⟨1, 2, 3⟩, ⟨4, 5, 6⟩⟩).2 = [] := by
  simp [inputCallback, initialNodeState, Time.zero]

/-- C2 (amended): For two consecutive samples on the same channel where the
recorded previous timestamp has a nonzero whole-seconds field, the forwarded
measurement carries dt equal to the exact difference of the two timestamps in
seconds; this holds on all four delta-time channels. -/
theorem dt_exact_seconds_difference (s : NodeState)
    (mi : ImuMsg) (mv : PoseMsg) (mg : OdomMsg) (mf : FlowMsg) :
    (s.prevStampImu.sec ≠ 0 →
      (inputCallback s mi).2 = [Call.run mi.angular_velocity mi.linear_acceleration
        mi.stamp.toUs (mi.stamp.toSec - s.prevStampImu.toSec)]) ∧
    (s.prevStampVisionPose.sec ≠ 0 →
      (visionCallback s mv).2 = [Call.updateVision mv.orientation mv.position
        mv.stamp.toUs (mv.stamp.toSec - s.prevStampVisionPose.toSec)]) ∧
    (s.prevStampGpsPose.sec ≠ 0 →
      (gpsCallback s mg).2 = [Call.updateGps mg.twist_linear mg.position
        mg.stamp.toUs (mg.stamp.toSec - s.prevStampGpsPose.toSec)]) ∧
    (s.prevStampOpticalFlowPose.sec ≠ 0 →
      (opticalFlowCallback s mf).2 = [Call.updateOpticalFlow
        ⟨mf.integrated_x, mf.integrated_y⟩ ⟨mf.integrated_xgyro, mf.integrated_ygyro⟩
        mf.integration_time_us mf.distance mf.quality
        mf.stamp.toUs (mf.stamp.toSec - s.prevStampOpticalFlowPose.toSec)]) := by
  refine ⟨fun h => ?_, fun h => ?_, fun h => ?_, fun h => ?_⟩ <;>
    simp [inputCallback, visionCallback, gpsCallback, opticalFlowCallback, h]

/-- Witness for the amended C2: the spec's scenario shifted above one second.
Inertial samples at t=1100000 microseconds (1.1 s) and then t=1150000
microseconds (1.15 s): the first sample produces no call, the second produces
exactly one inertial ingest with dt = 1/20 = 0.05 s. -/
theorem dt_exact_seconds_difference_witness :
    (inputCallback initialNodeState ⟨⟨1, 100000000⟩, ⟨1, 2, 3⟩, ⟨4, 5, 6⟩⟩).2 = [] ∧
    (inputCallback
      (inputCallback initialNodeState ⟨⟨1, 100000000⟩, ⟨1, 2, 3⟩, ⟨4, 5, 6⟩⟩).1
      ⟨⟨1, 150000000⟩, ⟨1, 2, 3⟩, ⟨4, 5, 6⟩⟩).2 =
      [Call.run ⟨1, 2, 3⟩ ⟨4, 5, 6⟩ 1150000 (1/20)] := by
  constructor
  · simp [inputCallback, initialNodeState, Time.zero]
  · have h := (dt_exact_seconds_difference
      (inputCallback initialNodeState ⟨⟨1, 100000000⟩, ⟨1, 2, 3⟩, ⟨4, 5, 6⟩⟩).1
      ⟨⟨1, 150000000⟩, ⟨1, 2, 3⟩, ⟨4, 5, 6⟩⟩ ⟨⟨3, 0⟩, ⟨1, 0, 0, 0⟩, ⟨7, 8, 9⟩⟩
      ⟨⟨4, 0⟩, ⟨1, 1, 1⟩, ⟨2, 2, 2⟩⟩ ⟨⟨5, 0⟩, 1, 2, 3, 4, 500, 6, 7⟩).1
      (by simp [inputCallback, initialNodeState, Time.zero])
    rw [h]
    norm_num [Time.toSec, Time.toUs, inputCallback, initialNodeState, Time.zero]

/-- Counterexample to C8 as stated: a gps sample at t=0.5 s is delivered and
recorded, then a non-monotonic sample at t=0.3 s arrives (t below the recorded
last timestamp). The claim demands a forwarded measurement with non-positive
dt, but the recorded 0.5 s stamp has a zero whole-seconds field, so the second
sample is swallowed as a bootstrap sample and nothing is forwarded. -/
theorem nonmonotonic_counterexample :
    (gpsCallback initialNodeState ⟨⟨0, 500000000⟩, ⟨1, 1, 1⟩, ⟨2, 2, 2⟩⟩).1.prevStampGpsPose
        = ⟨0, 500000000⟩ ∧
    (gpsCallback
      (gpsCallback initialNodeState ⟨⟨0, 500000000⟩, ⟨1, 1, 1⟩, ⟨2, 2, 2⟩⟩).1
      ⟨⟨0, 300000000⟩, ⟨1, 1, 1⟩, ⟨2, 2, 2⟩⟩).2 = [] := by
  constructor <;> simp [gpsCallback, initialNodeState, Time.zero]

/-- C8 (amended): For a non-first sample whose timestamp t is at most the
channel's recorded last timestamp, provided that recorded timestamp has a
nonzero whole-seconds field, the adapter does not reject the sample: it still
forwards a measurement whose dt, computed as t minus the last timestamp, is
zero or negative, with no error raised at this layer. -/
theorem nonmonotonic_passthrough (s : NodeState)
    (mi : ImuMsg) (mg : OdomMsg) :
    (s.prevStampImu.sec ≠ 0 → mi.stamp.toSec ≤ s.prevStampImu.toSec →
      (inputCallback s mi).2 = [Call.run mi.angular_velocity mi.linear_acceleration
        mi.stamp.toUs (mi.stamp.toSec - s.prevStampImu.toSec)] ∧
      mi.stamp.toSec - s.prevStampImu.toSec ≤ 0) ∧
    (s.prevStampGpsPose.sec ≠ 0 → mg.stamp.toSec ≤ s.prevStampGpsPose.toSec →
      (gpsCallback s mg).2 = [Call.updateGps mg.twist_linear mg.position
        mg.stamp.toUs (mg.stamp.toSec - s.prevStampGpsPose.toSec)] ∧
      mg.stamp.toSec - s.prevStampGpsPose.toSec ≤ 0) := by
  refine ⟨fun h hle => ⟨?_, by linarith⟩, fun h hle => ⟨?_, by linarith⟩⟩ <;>
    simp [inputCallback, gpsCallback, h]

/-- Witness for the amended C8: previous stamps recorded at 2.0 s, new samples
at 1.5 s; both channels forward a measurement with dt = -1/2. -/
theorem nonmonotonic_passthrough_witness :
    (inputCallback ⟨true, ⟨2, 0⟩, ⟨0, 0⟩, ⟨2, 0⟩, ⟨0, 0⟩⟩
        ⟨⟨1, 500000000⟩, ⟨1, 2, 3⟩, ⟨4, 5, 6⟩⟩).2 =
      [Call.run ⟨1, 2, 3⟩ ⟨4, 5, 6⟩ 1500000 (-(1/2))] ∧
    (gpsCallback ⟨true, ⟨2, 0⟩, ⟨0, 0⟩, ⟨2, 0⟩, ⟨0, 0⟩⟩
        ⟨⟨1, 500000000⟩, ⟨1, 1, 1⟩, ⟨2, 2, 2⟩⟩).2 =
      [Call.updateGps ⟨1, 1, 1⟩ ⟨2, 2, 2⟩ 1500000 (-(1/2))] := by
  obtain ⟨h1, h2⟩ := nonmonotonic_passthrough ⟨true, ⟨2, 0⟩, ⟨0, 0⟩, ⟨2, 0⟩, ⟨0, 0⟩⟩
    ⟨⟨1, 500000000⟩, ⟨1, 2, 3⟩, ⟨4, 5, 6⟩⟩ ⟨⟨1, 500000000⟩, ⟨1, 1, 1⟩, ⟨2, 2, 2⟩⟩
  have e1 := (h1 (by norm_num) (by norm_num [Time.toSec])).1
  have e2 := (h2 (by norm_num) (by norm_num [Time.toSec])).1
  rw [e1, e2]
  norm_num [Time.toSec, Time.toUs]

/-- C4: The mask value handed to the Estimator Facade's configure operation
(setFusionMask) is the single stored value also used to decide which optional
channels are subscribed: for every mask value there is one handed-downstream
value, and each channel group is wired if and only if that handed value
enables it. -/
theorem mask_single_source (mask : Nat) :
    ∃ handed : Nat,
      (nodeConstructor mask).2 = [Call.setFusionMask handed] ∧
      (nodeConstructor mask).1.vision = maskEnablesVision handed ∧
      (nodeConstructor mask).1.gps = maskEnablesGps handed ∧
      (nodeConstructor mask).1.opticalFlow = maskEnablesOpticalFlow handed :=
  ⟨mask, rfl, rfl, rfl, rfl⟩

/-- Unfolding lemma for the publisher loop over all starting counter values:
the emitted sequence numbers are consecutive from the starting counter, one
record per tick, each with the all-zero 6x6 covariance. -/
lemma runPublisher_spec :
    ∀ (ticks : List (EstimatorBelief × Time)) (k : Nat),
      (runPublisher k ticks).2.length = ticks.length ∧
      (runPublisher k ticks).2.map OutputPose.seq = List.range' k ticks.length ∧
      ((runPublisher k ticks).2.all
        (fun r => decide (r.covariance = List.replicate 36 0))) = true
  | [], _ => ⟨rfl, rfl, rfl⟩
  | (est, now) :: rest, k => by
    obtain ⟨hlen, hseq, hcov⟩ := runPublisher_spec rest (k + 1)
    have hsplit : (runPublisher k ((est, now) :: rest)).2
        = (publishState est now k).2 :: (runPublisher (k + 1) rest).2 := rfl
    refine ⟨?_, ?_, ?_⟩
    · rw [hsplit, List.length_cons, hlen, List.length_cons]
    · rw [hsplit, List.map_cons, hseq, List.length_cons, List.range'_succ]
      rfl
    · rw [hsplit, List.all_cons, hcov, Bool.and_true]
      simp [publishState]

/-- C5: When the publisher is ticked N times, it emits exactly N output pose
records; their sequence numbers are exactly 0, 1, ..., N-1 in order (strictly
increasing from 0), and every record's covariance has all 36 entries equal to
zero. -/
theorem publisher_counts_seq_zero_cov (ticks : List (EstimatorBelief × Time)) :
    (runPublisher 0 ticks).2.length = ticks.length ∧
    (runPublisher 0 ticks).2.map OutputPose.seq = List.range ticks.length ∧
    ((runPublisher 0 ticks).2.all
      (fun r => decide (r.covariance = List.replicate 36 0))) = true := by
  obtain ⟨hlen, hseq, hcov⟩ := runPublisher_spec ticks 0
  exact ⟨hlen, by rw [hseq, List.range_eq_range'], hcov⟩

/-- C9: Every publisher tick emits exactly one output pose regardless of
whether the estimator has ever ingested a sample: publishState consumes no
node channel state and no initialization flag, and the emitted record carries
whatever orientation and position the estimator currently reports - in
particular the estimator's default state when nothing was ever forwarded. -/
theorem publish_not_gated (est : EstimatorBelief) (now : Time) (traceId : Nat) :
    (runPublisher traceId [(est, now)]).2.length = 1 ∧
    (publishState est now traceId).2.orientation = est.q ∧
    (publishState est now traceId).2.position = est.p ∧
    (publishState est now traceId).2.seq = traceId :=
  ⟨rfl, rfl, rfl, rfl⟩

/-- Master gating lemma: every facade call emitted while running the node
under a given subscription set belongs to a channel whose subscription flag is
set, for the three optional channels. -/
lemma runNode_calls_enabled (subs : Subscriptions) :
    ∀ (msgs : List RawMsg) (s : NodeState),
      ((runNode subs s msgs).2.all
        (fun c => (!c.isVisionCall || subs.vision)
          && ((!c.isGpsCall || subs.gps)
            && (!c.isOpticalFlowCall || subs.opticalFlow)))) = true
  | [], _ => rfl
  | msg :: rest, s => by
    have tail := runNode_calls_enabled subs rest (stepNode subs s msg).1
    have hsplit : (runNode subs s (msg :: rest)).2
        = (stepNode subs s msg).2 ++ (runNode subs (stepNode subs s msg).1 rest).2 := rfl
    rw [hsplit, List.all_append, tail, Bool.and_true]
    cases msg with
    | imu m =>
      cases hs : subs.imu with
      | false => simp [stepNode, hs]
      | true =>
        by_cases h : s.prevStampImu.sec = 0 <;>
          simp [stepNode, hs, inputCallback, h,
            Call.isVisionCall, Call.isGpsCall, Call.isOpticalFlowCall]
    | vision m =>
      cases hs : subs.vision with
      | false => simp [stepNode, hs]
      | true =>
        by_cases h : s.prevStampVisionPose.sec = 0 <;>
          simp [stepNode, hs, visionCallback, h,
            Call.isVisionCall, Call.isGpsCall, Call.isOpticalFlowCall]
    | gps m =>
      cases hs : subs.gps with
      | false => simp [stepNode, hs]
      | true =>
        by_cases h : s.prevStampGpsPose.sec = 0 <;>
          simp [stepNode, hs, gpsCallback, h,
            Call.isVisionCall, Call.isGpsCall, Call.isOpticalFlowCall]
    | opticalFlow m =>
      cases hs : subs.opticalFlow with
      | false => simp [stepNode, hs]
      | true =>
        by_cases h : s.prevStampOpticalFlowPose.sec = 0 <;>
          simp [stepNode, hs, opticalFlowCallback, h,
            Call.isVisionCall, Call.isGpsCall, Call.isOpticalFlowCall]
    | extendedState m =>
      cases hs : subs.extendedState with
      | false => simp [stepNode, hs]
      | true =>
        simp [stepNode, hs, extendedStateCallback,
          Call.isVisionCall, Call.isGpsCall, Call.isOpticalFlowCall]

/-- C3: With fusion mask 0 none of the three optional channels is subscribed
and no vision, gps or optical-flow facade call is ever emitted, whatever raw
messages are delivered; with a mask enabling only vision bits, no gps or
optical-flow facade call is ever emitted, and a delivered vision message
follows the standard bootstrap-plus-delta rule. -/
theorem mask_gating (mask : Nat) (msgs : List RawMsg) (s : NodeState) (mv : PoseMsg) :
    ((nodeSubscriptions 0).vision = false ∧ (nodeSubscriptions 0).gps = false ∧
      (nodeSubscriptions 0).opticalFlow = false) ∧
    ((runNode (nodeSubscriptions 0) s msgs).2.all
      (fun c => !c.isVisionCall && (!c.isGpsCall && !c.isOpticalFlowCall))) = true ∧
    (maskEnablesGps mask = false → maskEnablesOpticalFlow mask = false →
      ((runNode (nodeSubscriptions mask) s msgs).2.all
        (fun c => !c.isGpsCall && !c.isOpticalFlowCall)) = true) ∧
    (maskEnablesVision mask = true →
      (s.prevStampVisionPose.sec = 0 →
        stepNode (nodeSubscriptions mask) s (RawMsg.vision mv)
          = ({ s with prevStampVisionPose := mv.stamp }, [])) ∧
      (s.prevStampVisionPose.sec ≠ 0 →
        stepNode (nodeSubscriptions mask) s (RawMsg.vision mv)
          = ({ s with prevStampVisionPose := mv.stamp },
            [Call.updateVision mv.orientation mv.position mv.stamp.toUs
              (mv.stamp.toSec - s.prevStampVisionPose.toSec)]))) := by
  have h0 : nodeSubscriptions 0 = ⟨true, true, false, false, false⟩ := rfl
  refine ⟨⟨rfl, rfl, rfl⟩, ?_, fun hg ho => ?_, fun hv => ?_⟩
  · have h := runNode_calls_enabled (nodeSubscriptions 0) msgs s
    rw [h0] at h ⊢
    rw [List.all_eq_true] at h ⊢
    intro c hc
    have hx := h c hc
    simp only [Bool.or_false, Bool.and_eq_true] at hx
    simp only [Bool.and_eq_true]
    exact ⟨hx.1, hx.2⟩
  · have h := runNode_calls_enabled (nodeSubscriptions mask) msgs s
    have hgps : (nodeSubscriptions mask).gps = false := hg
    have hof : (nodeSubscriptions mask).opticalFlow = false := ho
    rw [List.all_eq_true] at h ⊢
    intro c hc
    have hx := h c hc
    simp only [hgps, hof, Bool.or_false, Bool.and_eq_true] at hx
    simp only [Bool.and_eq_true]
    exact hx.2
  · have hvis : (nodeSubscriptions mask).vision = true := hv
    refine ⟨fun hp => ?_, fun hp => ?_⟩ <;>
      simp [stepNode, hvis, visionCallback, hp]

/-- A concrete raw-message sequence exercising every channel once. -/
def sampleMsgs : List RawMsg :=
  [RawMsg.imu ⟨⟨6, 0⟩, ⟨1, 2, 3⟩, ⟨4, 5, 6⟩⟩,
   RawMsg.vision ⟨⟨7, 0⟩, ⟨1, 0, 0, 0⟩, ⟨7, 8, 9⟩⟩,
   RawMsg.gps ⟨⟨8, 0⟩, ⟨1, 1, 1⟩, ⟨2, 2, 2⟩⟩,
   RawMsg.opticalFlow ⟨⟨9, 0⟩, 1, 2, 3, 4, 500, 6, 7⟩,
   RawMsg.extendedState ⟨2⟩]

/-- Witness for C3 at mask 0 and mask MASK_EV_POS = 1 (vision only), on a
concrete message sequence hitting every channel, from the fresh node state. -/
theorem mask_gating_witness :
    ((runNode (nodeSubscriptions 0) initialNodeState sampleMsgs).2.all
      (fun c => !c.isVisionCall && (!c.isGpsCall && !c.isOpticalFlowCall))) = true ∧
    ((runNode (nodeSubscriptions 1) initialNodeState sampleMsgs).2.all
      (fun c => !c.isGpsCall && !c.isOpticalFlowCall)) = true ∧
    stepNode (nodeSubscriptions 1) initialNodeState
        (RawMsg.vision ⟨⟨7, 0⟩, ⟨1, 0, 0, 0⟩, ⟨7, 8, 9⟩⟩)
      = ({ initialNodeState with prevStampVisionPose := ⟨7, 0⟩ }, []) := by
  obtain ⟨h1, h2, h3, h4⟩ := mask_gating 1 sampleMsgs initialNodeState
    ⟨⟨7, 0⟩, ⟨1, 0, 0, 0⟩, ⟨7, 8, 9⟩⟩
  exact ⟨h2, h3 rfl rfl, (h4 rfl).1 rfl⟩

end ESKF
